import Mathlib

/-!
Verification of the multi-persona conversational agent supervisor.

This file gives a shallow embedding of the orchestration engine of the
repository (the agent subgraph orchestrator and its nodes, the supervisor
scheduler/executor pair, the emotion and personality analyzers, the
human-approval gate and the state reducers) and proves or refutes the
stated properties of that code.

Python dictionaries are modelled as structures whose fields are `Option`
values when the corresponding key may be absent; `dict.get(k, d)` becomes
`(·.k).getD d`.  Python string truthiness (`if not s:`) is modelled by
`strTruthy`, which is false exactly on `None` and the empty string.
LLM responses and other environment inputs are supplied by explicit
oracle arguments, so every theorem quantifies over all possible
model outputs.
-/

namespace CulturalAgents

/-- Character-list prefix test used to implement the Python `in` operator
on strings. -/
def isPrefixList : List Char → List Char → Bool
  | [], _ => true
  | _ :: _, [] => false
  | a :: as, b :: bs => a = b && isPrefixList as bs

/-- Character-list containment: does the second list contain the first as a
contiguous sublist? -/
def containsList (needle : List Char) : List Char → Bool
  | [] => needle.isEmpty
  | c :: rest => isPrefixList needle (c :: rest) || containsList needle rest

/-- Python `needle in hay` on strings. -/
def pyContains (hay needle : String) : Bool :=
  containsList needle.data hay.data

/-- ASCII lower-casing of one character (the trigger ids handled by the
code are ASCII, so this is Python `str.lower` on the relevant
alphabet). -/
def lowerChar (c : Char) : Char :=
  if 'A' ≤ c ∧ c ≤ 'Z' then Char.ofNat (c.toNat + 32) else c

/-- Python `s.lower()` (ASCII fragment), defined structurally so that
concrete instances evaluate in the kernel. -/
def pyLower (s : String) : String :=
  ⟨s.data.map lowerChar⟩

/-- Python truthiness of an optional string: `None` and `""` are falsy. -/
def strTruthy : Option String → Bool
  | none => false
  | some s => s ≠ ""

/-! ## Agent-subgraph data model (states/agent_state.py, dict-shaped values) -/

/-- Target-message reference carried by a detected trigger or an executor
queue item: a dict with keys `timestamp` and `text`
(trigger_analysis.py builds it only when both are non-empty). -/
structure TargetMsg where
  timestamp : String
  text : String
deriving Repr, DecidableEq

/-- Detected-trigger dict produced by `trigger_analysis_node`:
`{id, justification, target_message?}`. -/
structure DetectedTrigger where
  id : String
  justification : String
  target_message : Option TargetMsg := none
deriving Repr, DecidableEq

/-- The `selected_action` dict.  Every key may be absent (the decision
maker creates it with only `id` and `purpose`; the orchestrator adds
status and identity fields on terminal branches). -/
structure SelAction where
  id : Option String := none
  purpose : Option String := none
  status : Option String := none
  reason : Option String := none
  error : Option String := none
  styled_response : Option String := none
  validation_note : Option String := none
  agent_type : Option String := none
  agent_name : Option String := none
  phone_number : Option String := none
  target_message : Option TargetMsg := none
deriving Repr, DecidableEq

/-- The `validation` dict returned by `validator_node`
(`styled_response` echo field omitted: no consumer reads it). -/
structure Validation where
  approved : Bool
  explanation : Option String := none
deriving Repr, DecidableEq

/-- Persona dict slice read by the orchestrator and the supervisor
wrapper node. -/
structure Persona where
  agent_name : Option String := none
  first_name : Option String := none
  last_name : Option String := none
  phone_number : Option String := none
deriving Repr, DecidableEq

/-- AgentState: the per-persona subgraph state
(states/agent_state.py), restricted to the fields the orchestrator,
validator and supervisor wrapper read or write. -/
structure AgentState where
  detected_trigger : Option DetectedTrigger := none
  selected_action : Option SelAction := none
  generated_response : Option String := none
  styled_response : Option String := none
  validation : Option Validation := none
  validation_feedback : Option String := none
  retry_count : Nat := 0
  current_node : Option String := none
  next_node : Option String := none
  agent_type : Option String := none
  selected_persona : Option Persona := none
deriving Repr, DecidableEq

/-- Maximum validator retries (orchestrator.py / validator.py constant). -/
def MAX_RETRIES : Nat := 3

/-- LangGraph terminal node marker. -/
def END : String := "__end__"

/-- Update dict returned by `orchestrator_node`; `none` fields model keys
absent from the returned dict (LangGraph leaves the state entry
unchanged for an absent key). -/
structure OrchUpdate where
  selected_action : Option SelAction := none
  retry_count : Option Nat := none
  current_node : String
  next_node : String
deriving Repr, DecidableEq

/-- Shallow embedding of `orchestrator_node`
(nodes/agent/orchestrator.py).  Routes between agent nodes based on
`current_node`, exactly mirroring the source branch structure. -/
def orchestrator_node (state : AgentState) : OrchUpdate :=
  let agent_type := state.agent_type.getD "unknown"
  let agent_name := ((state.selected_persona.getD {}).agent_name).getD "unknown"
  if state.current_node = none ∨ state.current_node = some "orchestrator" then
    { current_node := "orchestrator", next_node := "trigger_analysis" }
  else if state.current_node = some "trigger_analysis" then
    match state.detected_trigger with
    | none =>
      let sa : SelAction :=
        { status := some "no_action_needed", reason := some "no_trigger_detected",
          agent_type := some agent_type, agent_name := some agent_name }
      { selected_action := some sa, current_node := "orchestrator", next_node := END }
    | some dt =>
      if dt.id = "neutral" ∨ pyContains (pyLower dt.id) "neutral" then
        let sa : SelAction :=
          { status := some "no_action_needed", reason := some "neutral_trigger",
            agent_type := some agent_type, agent_name := some agent_name }
        { selected_action := some sa, current_node := "orchestrator", next_node := END }
      else
        { current_node := "orchestrator", next_node := "decision_maker" }
  else if state.current_node = some "decision_maker" then
    match state.selected_action with
    | none =>
      let sa : SelAction :=
        { status := some "no_action_needed", reason := some "no_action_selected",
          agent_type := some agent_type, agent_name := some agent_name }
      { selected_action := some sa, current_node := "orchestrator", next_node := END }
    | some _ =>
      { current_node := "orchestrator", next_node := "text_generator" }
  else if state.current_node = some "text_generator" then
    if ¬ strTruthy state.generated_response then
      let sa : SelAction :=
        { status := some "error", reason := some "text_generation_failed",
          error := some "No response generated by E.1",
          agent_type := some agent_type, agent_name := some agent_name }
      { selected_action := some sa, current_node := "orchestrator", next_node := END }
    else
      { current_node := "orchestrator", next_node := "styler" }
  else if state.current_node = some "styler" then
    if ¬ strTruthy state.styled_response then
      let sa : SelAction :=
        { status := some "error", reason := some "styling_failed",
          error := some "No styled response generated by E.2",
          agent_type := some agent_type, agent_name := some agent_name }
      { selected_action := some sa, current_node := "orchestrator", next_node := END }
    else
      { current_node := "orchestrator", next_node := "validator" }
  else if state.current_node = some "validator" then
    let approved := (state.validation.map (·.approved)).getD false
    if approved then
      let sa0 := state.selected_action.getD {}
      let sa : SelAction :=
        { sa0 with
            status := some "success", styled_response := state.styled_response,
            agent_type := some agent_type, agent_name := some agent_name,
            phone_number := some ((state.selected_persona.getD {}).phone_number.getD "") }
      { selected_action := some sa, retry_count := some 0,
        current_node := "orchestrator", next_node := END }
    else if state.retry_count ≥ MAX_RETRIES then
      let sa0 := state.selected_action.getD {}
      let sa : SelAction :=
        { sa0 with
            status := some "max_retries_reached",
            styled_response := state.styled_response,
            validation_note := some "Failed validation after 3 attempts",
            agent_type := some agent_type, agent_name := some agent_name }
      { selected_action := some sa, retry_count := some 0,
        current_node := "orchestrator", next_node := END }
    else
      { current_node := "orchestrator", next_node := "text_generator" }
  else
    let sa : SelAction :=
      { status := some "error", reason := some "unknown_state",
        error := some "Orchestrator encountered unknown state",
        agent_type := some agent_type, agent_name := some agent_name }
    { selected_action := some sa, current_node := "orchestrator", next_node := END }

/-- Status carried by an orchestrator update, when one is set. -/
def updStatus (u : OrchUpdate) : Option String :=
  match u.selected_action with
  | none => none
  | some sa => sa.status

/-! ## Agent subgraph as a state machine (build_graph.py `build_agent_graph`)

The subgraph alternates the orchestrator with the routed node; LLM
outputs are drawn from an oracle, one entry per machine step, so the
theorems below quantify over every possible sequence of model
responses. -/

/-- Possible outcomes of the validator's LLM call: the parsed verdict,
a JSON parse failure, or a raised exception (validator.py). -/
inductive VOutcome where
  | approved : VOutcome
  | notApproved (expl : String) : VOutcome
  | parseError : VOutcome
  | excpt (msg : String) : VOutcome
deriving Repr, DecidableEq

/-- Result of one `decision_maker_node` invocation
(nodes/agent/decision_maker.py): the four early branches (neutral
trigger, ERROR trigger, no suggested actions, missing action details;
lines 48-87) assign `state['selected_action'] = None` in place and
bare-`return`, which produces NO LangGraph update — `noUpdate`; the
LLM-driven branches return `{'selected_action': X, 'current_node':
'decision_maker'}` with `X` either the chosen `{id, purpose}` dict or
`None` — `update X`. -/
inductive DecisionOut where
  | noUpdate : DecisionOut
  | update (selected_action : Option SelAction) : DecisionOut
deriving Repr, DecidableEq

/-- One oracle entry: the environment-chosen result of whichever LLM
node runs at this step. -/
structure OracleOut where
  trig : Option DetectedTrigger := none
  decision : DecisionOut := .update none
  gen : Option String := none
  style : Option String := none
  valid : VOutcome := .approved

/-- Shallow embedding of `validator_node` (nodes/agent/validator.py):
empty styled response is rejected without touching `retry_count`;
at `retry_count ≥ MAX_RETRIES` the response is approved by default;
otherwise the LLM verdict decides, and every non-approved outcome
returns `retry_count + 1`. -/
def validator_node (v : VOutcome) (s : AgentState) : AgentState :=
  if ¬ strTruthy s.styled_response then
    { s with
        validation := some { approved := false,
                             explanation := some "No styled response was generated" },
        validation_feedback := some "No styled response was generated",
        current_node := some "validator" }
  else if s.retry_count ≥ MAX_RETRIES then
    { s with
        validation := some { approved := true },
        validation_feedback := none, retry_count := 0,
        current_node := some "validator" }
  else
    match v with
    | .approved =>
      { s with
          validation := some { approved := true },
          validation_feedback := none, retry_count := 0,
          current_node := some "validator" }
    | .notApproved expl =>
      { s with
          validation := some { approved := false, explanation := some expl },
          validation_feedback := some expl,
          retry_count := s.retry_count + 1,
          current_node := some "validator" }
    | .parseError =>
      { s with
          validation := some { approved := false,
                               explanation := some "Validator response could not be parsed" },
          validation_feedback := some "Validator response could not be parsed",
          retry_count := s.retry_count + 1,
          current_node := some "validator" }
    | .excpt msg =>
      { s with
          validation := some { approved := false,
                               explanation := some ("Validator error: " ++ msg) },
          validation_feedback := some ("Validator error: " ++ msg),
          retry_count := s.retry_count + 1,
          current_node := some "validator" }

/-- Execute the routed node: trigger analysis, text generator and
styler write their single output slot and `current_node`; the
decision maker either produces no update at all (its bare-return
branches) or writes `selected_action` and `current_node`; the
validator follows `validator_node`. -/
def nodeRun (name : String) (o : OracleOut) (s : AgentState) : AgentState :=
  if name = "trigger_analysis" then
    { s with detected_trigger := o.trig, current_node := some "trigger_analysis" }
  else if name = "decision_maker" then
    match o.decision with
    | .noUpdate => s
    | .update sa =>
      { s with selected_action := sa, current_node := some "decision_maker" }
  else if name = "text_generator" then
    { s with generated_response := o.gen, current_node := some "text_generator" }
  else if name = "styler" then
    { s with styled_response := o.style, current_node := some "styler" }
  else if name = "validator" then
    validator_node o.valid s
  else s

/-- Apply an orchestrator update dict to the agent state (plain per-key
overwrite; absent keys keep their value). -/
def applyOrch (s : AgentState) (u : OrchUpdate) : AgentState :=
  { s with
      current_node := some u.current_node,
      next_node := some u.next_node,
      selected_action := match u.selected_action with
        | none => s.selected_action
        | some sa => some sa,
      retry_count := u.retry_count.getD s.retry_count }

/-- Result of one machine step: the run ended, or continues in a new
state. -/
inductive StepRes where
  | done (s : AgentState) : StepRes
  | cont (s : AgentState) : StepRes
deriving Repr, DecidableEq

/-- One step of the agent subgraph: the orchestrator routes, then the
routed node runs (LangGraph's orchestrator-hub wiring in
`build_agent_graph`). -/
def stepA (o : OracleOut) (s : AgentState) : StepRes :=
  let u := orchestrator_node s
  let s1 := applyOrch s u
  if u.next_node = END then .done s1 else .cont (nodeRun u.next_node o s1)

/-- Flag: does the orchestrator route this state into `text_generator`? -/
def tgFlag (s : AgentState) : Nat :=
  if (orchestrator_node s).next_node = "text_generator" then 1 else 0

/-- Run the subgraph with the given fuel, counting entries into
`text_generator`.  `k` indexes the oracle. -/
def runA (oracle : Nat → OracleOut) : Nat → Nat → AgentState → Option (AgentState × Nat)
  | 0, _, _ => none
  | fuel + 1, k, s =>
    match stepA (oracle k) s with
    | .done sf => some (sf, 0)
    | .cont s1 =>
      (runA oracle fuel (k + 1) s1).map (fun r => (r.1, r.2 + tgFlag s))

/-- Validation verdict currently recorded in the state, defaulting to
false (mirrors `validation.get('approved', False)`). -/
def approvedOf (s : AgentState) : Bool :=
  (s.validation.map (·.approved)).getD false

/-- Retry headroom `3 - retry_count`, clamped at 0. -/
def gRc (rc : Nat) : Nat := 3 - min rc 3

/-- Termination measure for the subgraph machine: strictly decreases on
every continuing step. -/
def mu (s : AgentState) : Nat :=
  if s.current_node = some "trigger_analysis" then 20
  else if s.current_node = some "decision_maker" then 19
  else if s.current_node = some "text_generator" then 5 * gRc s.retry_count + 2
  else if s.current_node = some "styler" then 5 * gRc s.retry_count + 1
  else if s.current_node = some "validator" then
    (if approvedOf s then 0 else 5 * gRc s.retry_count + 3)
  else 21

/-- Bound on the number of future `text_generator` entries from a given
retry count. -/
def ftg (rc : Nat) : Nat := 2 - min rc 2

/-- Potential function bounding the remaining `text_generator` entries
of a run. -/
def FA (s : AgentState) : Nat :=
  if s.current_node = some "text_generator" then ftg s.retry_count
  else if s.current_node = some "styler" then ftg s.retry_count
  else if s.current_node = some "validator" then
    (if approvedOf s then 0 else min 1 (3 - s.retry_count) + ftg s.retry_count)
  else 1 + ftg s.retry_count

/-- Fresh AgentState built by the supervisor wrapper
(`create_agent_node` in build_graph.py): every pipeline slot cleared,
`retry_count = 0`, `current_node = None`. -/
def initAgentState (at? : Option String) (p : Option Persona) : AgentState :=
  { agent_type := at?, selected_persona := p }

/-- Concrete state after a trigger analysis that returned id "ERROR"
(what trigger_analysis_node produces on a JSON parse failure). -/
def errorTriggerState : AgentState :=
  { current_node := some "trigger_analysis",
    detected_trigger := some { id := "ERROR",
                               justification := "JSON parsing failed" } }

/-- Concrete state after a trigger analysis that found no trigger. -/
def nullTriggerState : AgentState :=
  { current_node := some "trigger_analysis", detected_trigger := none }

/-- Concrete state after a trigger analysis that returned a substantive
trigger id. -/
def questionTriggerState : AgentState :=
  { current_node := some "trigger_analysis",
    detected_trigger := some { id := "direct_question",
                               justification := "user asked the agent" } }

/-- Oracle whose every answer is empty/approved (the all-default LLM). -/
def defaultOracle : Nat → OracleOut := fun _ => {}

/-- Concrete validator input: a non-empty styled response at retry 0. -/
def validatorRejInput : AgentState :=
  { styled_response := some "a styled reply", retry_count := 0 }

/-- Concrete state at the orchestrator after a third rejected
validation: `retry_count = 3`, verdict not approved. -/
def maxRetryValidatorState : AgentState :=
  { current_node := some "validator",
    styled_response := some "a styled reply",
    validation := some { approved := false, explanation := some "off topic" },
    retry_count := 3 }

/-! ## Supervisor data model (states/supervisor_state.py) -/

/-- Per-message emotion annotation `{emotion, justification}`. -/
structure EmotionTag where
  emotion : String
  justification : String
deriving Repr, DecidableEq

/-- Chat message as carried in `recent_messages`, restricted to the
fields the scheduler and emotion analyzer read or write. -/
structure Message where
  message_id : Option String := none
  text : String := ""
  message_emotion : Option EmotionTag := none
  processed : Bool := false
deriving Repr, DecidableEq

/-- One entry of `selected_actions` (built by `create_agent_node` in
build_graph.py), with the keys the scheduler reads. -/
structure SchedAction where
  agent_name : Option String := none
  agent_type : Option String := none
  selected_action : Option SelAction := none
  styled_response : Option String := none
  phone_number : Option String := none
  status : Option String := none
  id : Option String := none
  purpose : Option String := none
  validation_note : Option String := none
deriving Repr, DecidableEq

/-- Nested `action` object of a scheduler queue item. -/
structure ActionObj where
  id : String
  purpose : String
deriving Repr, DecidableEq

/-- Target-message dict on an executor queue item; both keys may be
absent. -/
structure TargetMsgQ where
  timestamp : Option String := none
  text : Option String := none
deriving Repr, DecidableEq

/-- Execution-queue item.  The union of the key schemas observed in the
code: the scheduler nests the action id under `action`, while the
executor and the approval gate read top-level `action_id`,
`action_content` and `target_message`. -/
structure QueueItem where
  agent_name : Option String := none
  agent_type : Option String := none
  phone_number : Option String := none
  action : Option ActionObj := none
  action_id : Option String := none
  action_purpose : Option String := none
  action_content : Option String := none
  target_message : Option TargetMsgQ := none
  scheduled_time : Option String := none
  status : Option String := none
  validation_note : Option String := none
  trigger_id : Option String := none
  trigger_justification : Option String := none
deriving Repr, DecidableEq

/-- SupervisorState slice read and written by the embedded nodes. -/
structure SupervisorState where
  group_sentiment : Option String := none
  recent_messages : List Message := []
  selected_actions : List SchedAction := []
  execution_queue : List QueueItem := []
deriving Repr, DecidableEq

/-- Value returned for the `selected_actions` channel by a node: either
the `"CLEAR"` sentinel string or a list. -/
inductive SelActsUpdate where
  | clear : SelActsUpdate
  | items (l : List SchedAction) : SelActsUpdate
deriving Repr, DecidableEq

/-- Reducer `add_or_clear` of states/supervisor_state.py: the `"CLEAR"`
sentinel replaces the list with `[]`; any other value is appended to
the current list (`None` current treated as `[]`). -/
def add_or_clear (current : Option (List SchedAction)) (new : SelActsUpdate) :
    List SchedAction :=
  match new with
  | .clear => []
  | .items l => current.getD [] ++ l

/-! ## Scheduler (nodes/supervisor/scheduler.py) -/

/-- Filter of `scheduler_node`: keep only `success` and
`max_retries_reached`, mirroring the source's branch order. -/
def schedulerKeeps (action : SchedAction) : Bool :=
  let status := action.status.getD ""
  if status = "no_action_needed" then false
  else if status = "error" then false
  else if status = "success" ∨ status = "max_retries_reached" then true
  else false

/-- Queue item built by `scheduler_node` for one valid action; `t` is
the isoformat scheduled time (random delays are supplied by the
environment). -/
def schedulerQueueItem (t : String) (action : SchedAction) : QueueItem :=
  let base : QueueItem :=
    { agent_name := some (action.agent_name.getD "unknown"),
      agent_type := some (action.agent_type.getD "unknown"),
      phone_number := some (action.phone_number.getD ""),
      action := some { id := action.id.getD "unknown",
                       purpose := action.purpose.getD "" },
      action_content := some (action.styled_response.getD ""),
      scheduled_time := some t,
      status := some "pending" }
  if strTruthy action.validation_note then
    { base with validation_note := action.validation_note }
  else base

/-- Shallow embedding of `scheduler_node`: filters the selected
actions, builds the queue (scheduled times drawn from `times`), marks
every recent message processed and sets `selected_actions` to the
empty list — the literal Python `state['selected_actions'] = []`,
not the CLEAR sentinel. -/
def scheduler_node (times : Nat → String) (state : SupervisorState) :
    SupervisorState :=
  if state.selected_actions = [] then
    { state with execution_queue := [] }
  else
    let valid_actions := state.selected_actions.filter schedulerKeeps
    if valid_actions = [] then
      { state with execution_queue := [] }
    else
      let execution_queue :=
        valid_actions.enum.map (fun p => schedulerQueueItem (times p.1) p.2)
      { state with
          execution_queue := execution_queue,
          recent_messages :=
            state.recent_messages.map (fun m => { m with processed := true }),
          selected_actions := [] }

/-! ## Timestamp conversion (utils.py `convert_timestamp_to_iso`) -/

/-- Split a character list on a separator character (Python
`str.split(sep)` semantics for a one-character separator). -/
def splitOnChar (sep : Char) : List Char → List (List Char)
  | [] => [[]]
  | c :: rest =>
    let r := splitOnChar sep rest
    if c = sep then [] :: r
    else
      match r with
      | [] => [[c]]
      | h :: t => (c :: h) :: t

/-- Numeric value of a non-empty all-digit character list. -/
def natOfDigits (l : List Char) : Option Nat :=
  if l ≠ [] ∧ l.all (fun c => c.isDigit) then
    some (l.foldl (fun acc c => acc * 10 + (c.toNat - 48)) 0)
  else none

/-- Parse a digit field of between `lo` and `hi` characters. -/
def fieldNat (lo hi : Nat) (l : List Char) : Option Nat :=
  if lo ≤ l.length ∧ l.length ≤ hi then natOfDigits l else none

/-- Gregorian leap-year test. -/
def isLeapYear (y : Nat) : Bool :=
  y % 4 = 0 ∧ (y % 100 ≠ 0 ∨ y % 400 = 0)

/-- Days in a month (Gregorian; `datetime` validation). -/
def daysInMonth (y m : Nat) : Nat :=
  if m = 2 then (if isLeapYear y then 29 else 28)
  else if m = 4 ∨ m = 6 ∨ m = 9 ∨ m = 11 then 30
  else 31

/-- Zero-pad a number to two digits. -/
def pad2 (n : Nat) : String :=
  if n < 10 then "0" ++ Nat.repr n else Nat.repr n

/-- Zero-pad a year to four digits. -/
def pad4 (n : Nat) : String :=
  if n < 10 then "000" ++ Nat.repr n
  else if n < 100 then "00" ++ Nat.repr n
  else if n < 1000 then "0" ++ Nat.repr n
  else Nat.repr n

/-- Shallow embedding of `convert_timestamp_to_iso`: parse
`"YYYY-MM-DD HH:MM:SS"` with `strptime` validation (4-digit year,
1-2-digit numeric fields in range, real calendar date) and render
`"YYYY-MM-DDTHH:MM:SS.000Z"`; `None` on empty input or any parse
failure. -/
def convert_timestamp_to_iso (timestamp_str : String) : Option String :=
  if timestamp_str = "" then none
  else
    match splitOnChar ' ' timestamp_str.data with
    | [datePart, timePart] =>
      match splitOnChar '-' datePart, splitOnChar ':' timePart with
      | [ys, ms, ds], [hs, mins, ss] =>
        match fieldNat 4 4 ys, fieldNat 1 2 ms, fieldNat 1 2 ds,
              fieldNat 1 2 hs, fieldNat 1 2 mins, fieldNat 1 2 ss with
        | some y, some mo, some d, some h, some mi, some sec =>
          if 1 ≤ mo ∧ mo ≤ 12 ∧ 1 ≤ d ∧ d ≤ daysInMonth y mo ∧
              h ≤ 23 ∧ mi ≤ 59 ∧ sec ≤ 59 then
            some (pad4 y ++ "-" ++ pad2 mo ++ "-" ++ pad2 d ++ "T" ++
                  pad2 h ++ ":" ++ pad2 mi ++ ":" ++ pad2 sec ++ ".000Z")
          else none
        | _, _, _, _, _, _ => none
      | _, _ => none
    | _ => none

/-! ## Executor (nodes/supervisor/executor.py) -/

/-- Python `str.strip()` (ASCII whitespace fragment). -/
def pyStrip (s : String) : String :=
  let ws := fun c => c = ' ' ∨ c = '\t' ∨ c = '\n' ∨ c = '\r'
  ⟨((s.data.dropWhile ws).reverse.dropWhile ws).reverse⟩

/-- Typing-indicator duration: 100 ms per character clamped to
[2000, 8000] ms (`calculate_typing_duration`). -/
def calculate_typing_duration (content : String) : Nat :=
  max 2000 (min 8000 (content.length * 100))

/-- External calls the executor can make. -/
inductive Call where
  | typing (phone chatId : String) (duration : Nat) : Call
  | sendMessage (fromPhone toTarget contentValue : String)
      (replyToTimestamp : Option String) : Call
  | addReaction (phone chatId messageTimestamp emoji : String) : Call
deriving Repr, DecidableEq

/-- Is the call a message send? -/
def isSendCall : Call → Bool
  | .sendMessage _ _ _ _ => true
  | _ => false

/-- Is the call a reaction? -/
def isReactionCall : Call → Bool
  | .addReaction _ _ _ _ => true
  | _ => false

/-- Dispatch calls made by `executor_node` for one ready queue item
(lines 74-172 of executor.py): guards on phone and content, reply
timestamp resolution with most-recent elision for non-reactions,
then either the reaction endpoint or typing + send. -/
def executor_process_action (chat_id : String)
    (most_recent_timestamp : Option String) (action : QueueItem) : List Call :=
  let action_id := action.action_id.getD "unknown"
  let action_content := action.action_content.getD ""
  let phone_number := action.phone_number.getD ""
  if phone_number = "" then []
  else if action_content = "" then []
  else
    let reply_timestamp : Option String :=
      match action.target_message with
      | none => none
      | some tm =>
        let timestamp_str := tm.timestamp.getD ""
        if timestamp_str = "" then none
        else
          match convert_timestamp_to_iso timestamp_str with
          | none => none
          | some iso =>
            if action_id ≠ "add_reaction" then
              (if some timestamp_str = most_recent_timestamp then none else some iso)
            else some iso
    if action_id = "add_reaction" then
      match reply_timestamp with
      | none => []
      | some ts =>
        [Call.addReaction phone_number chat_id ts (pyStrip action_content)]
    else
      [Call.typing phone_number chat_id (calculate_typing_duration action_content),
       Call.sendMessage phone_number chat_id action_content reply_timestamp]

/-- Target-message timestamp of a queue item, treating an absent
`target_message`, an absent `timestamp` key and an empty string alike
(all are falsy in the executor's guards). -/
def targetTimestamp (q : QueueItem) : Option String :=
  match q.target_message with
  | none => none
  | some tm =>
    let t := tm.timestamp.getD ""
    if t = "" then none else some t

/-- Concrete selected action approved by the validator. -/
def c1_action : SchedAction :=
  { status := some "success", agent_name := some "Tamar",
    agent_type := some "expert", phone_number := some "15550001",
    styled_response := some "Here is an answer." }

/-- Scheduled-time oracle for the C1 run. -/
def c1_times : Nat → String := fun _ => "2025-11-26T08:36:10"

/-- Concrete SupervisorState entering the scheduler with one selected
action. -/
def c1_state : SupervisorState :=
  { selected_actions := [c1_action],
    recent_messages := [{ message_id := some "m1", text := "hello" }] }

/-- Concrete max-retries action for the scheduler-to-executor path. -/
def c10_action : SchedAction :=
  { status := some "max_retries_reached", agent_name := some "Matan",
    agent_type := some "troll", phone_number := some "15550002",
    styled_response := some "lol",
    validation_note := some "Failed validation after 3 attempts" }

/-- Scheduled-time oracle for the C10 run. -/
def c10_times : Nat → String := fun _ => "2025-11-26T09:00:00"

/-- Concrete SupervisorState entering the scheduler for C10. -/
def c10_state : SupervisorState := { selected_actions := [c10_action] }

/-- Reaction queue item with a convertible target timestamp. -/
def reactionItemWithTs : QueueItem :=
  { action_id := some "add_reaction", action_content := some "👍",
    phone_number := some "15550003",
    target_message := some { timestamp := some "2025-11-26 08:36:07" },
    status := some "pending" }

/-- Reaction queue item lacking a target message entirely. -/
def reactionItemNoTs : QueueItem :=
  { action_id := some "add_reaction", action_content := some "👍",
    phone_number := some "15550003", status := some "pending" }

/-! ## Emotion analyzer (nodes/supervisor/component_B.py) -/

/-- One entry of `message_emotions` in the parsed LLM response; the
`message_id` key is accessed unconditionally by the code, the other
two default when absent. -/
structure EmotionResponseItem where
  message_id : String
  emotion : Option String := none
  justification : Option String := none
deriving Repr, DecidableEq

/-- Net outcome of the emotion analyzer's LLM interaction: a
successfully parsed JSON object (possibly on the in-line retry), a
parse failure on both attempts, or a raised exception. -/
inductive BOutcome where
  | parsed (message_emotions : List EmotionResponseItem)
      (group_sentiment : Option String) : BOutcome
  | parseFailedTwice : BOutcome
  | raised (msg : String) : BOutcome
deriving Repr, DecidableEq

/-- Lookup in `emotion_map` (a dict comprehension, so the last item
with a given id wins). -/
def emotionLookup (items : List EmotionResponseItem) (mid : String) :
    Option EmotionResponseItem :=
  (items.filter (fun it => it.message_id = mid)).getLast?

/-- Fill one unclassified message from the parsed response: matched ids
get the reported emotion (with the source's defaults), unmatched ones
get the ERROR tag.  Already-classified messages are untouched. -/
def classifyMessage (items : List EmotionResponseItem) (m : Message) : Message :=
  if m.message_emotion = none then
    match m.message_id.bind (emotionLookup items) with
    | some ed =>
      let tag : EmotionTag :=
        { emotion := ed.emotion.getD "neutral",
          justification := ed.justification.getD "No justification provided" }
      { m with message_emotion := some tag }
    | none =>
      let tag : EmotionTag :=
        { emotion := "ERROR",
          justification := "LLM did not return emotion for this message" }
      { m with message_emotion := some tag }
  else m

/-- Mark every still-unclassified message with an ERROR emotion tag
carrying the given justification. -/
def errorClassify (justification : String) (m : Message) : Message :=
  if m.message_emotion = none then
    let tag : EmotionTag := { emotion := "ERROR", justification := justification }
    { m with message_emotion := some tag }
  else m

/-- Shallow embedding of `emotion_analysis_node`: skip (but backfill an
empty `group_sentiment`) when nothing is unclassified; otherwise fill
emotions and sentiment from the parsed response, or write ERROR tags
and an ERROR sentiment on double parse failure or exception. -/
def emotion_analysis_node (o : BOutcome) (st : SupervisorState) : SupervisorState :=
  let unclassified := st.recent_messages.filter (fun m => m.message_emotion = none)
  if unclassified = [] then
    if ¬ strTruthy st.group_sentiment then
      { st with group_sentiment := some "No recent messages to analyze." }
    else st
  else
    match o with
    | .parsed items gs =>
      { st with
          recent_messages := st.recent_messages.map (classifyMessage items),
          group_sentiment := some (gs.getD "ERROR: No sentiment provided") }
    | .parseFailedTwice =>
      { st with
          recent_messages :=
            st.recent_messages.map (errorClassify "JSON parsing failed"),
          group_sentiment := some "ERROR: Failed to parse LLM response" }
    | .raised msg =>
      { st with
          recent_messages :=
            st.recent_messages.map (errorClassify ("Analysis failed: " ++ msg)),
          group_sentiment := some ("ERROR: " ++ msg) }

/-! ## Personality analyzer (nodes/supervisor/component_C.py and
memory/participant.py) -/

/-- Per-trait analysis data `{score, confidence, justification,
raw_confidence?}`; confidences are rationals (Python floats). -/
structure TraitData where
  score : Option Int := none
  confidence : Option ℚ := none
  justification : Option String := none
  raw_confidence : Option ℚ := none
deriving Repr, DecidableEq

/-- The five Big-Five traits (`BIG5_TRAITS`). -/
def BIG5_TRAITS : List String :=
  ["openness", "conscientiousness", "extraversion", "agreeableness", "neuroticism"]

/-- One personality snapshot (the `big5` mapping of
`personality_analysis`, flattened). -/
structure Snapshot where
  analysis_date : Option String := none
  messages_analyzed_count : Option Nat := none
  big5 : List (String × TraitData) := []
  overall_confidence : Option ℚ := none
deriving Repr, DecidableEq

/-- On-disk participant record slice. -/
structure ParticipantData where
  user_id : Option String := none
  username : Option String := none
  personality_snapshots : List Snapshot := []
deriving Repr, DecidableEq

/-- Python `big5.get(trait, {})` on the trait mapping. -/
def dictGetTrait (big5 : List (String × TraitData)) (trait : String) : TraitData :=
  (big5.lookup trait).getD {}

/-- Shallow embedding of `is_user_confident_enough`
(component_C.py lines 184-227).  Note the source reads
`snapshots[-1]` — the LAST list element. -/
def is_user_confident_enough (participant_data : Option ParticipantData)
    (confidence_thresholds : List (String × ℚ)) :
    Bool × List (String × TraitData) :=
  match participant_data with
  | none => (false, [])
  | some pd =>
    match pd.personality_snapshots.getLast? with
    | none => (false, [])
    | some latest =>
      if latest.big5 = [] then (false, [])
      else
        (BIG5_TRAITS.all (fun trait =>
          let confidence := (dictGetTrait latest.big5 trait).confidence.getD 0
          let threshold := (confidence_thresholds.lookup trait).getD (9 / 10)
          threshold ≤ confidence), latest.big5)

/-- Snapshot insertion of `save_personality_analysis`
(memory/participant.py line 267): `insert(0, new_snapshot)`, so the
most recently written snapshot is FIRST in the list. -/
def save_personality_snapshot (pd : ParticipantData) (new_snapshot : Snapshot) :
    ParticipantData :=
  { pd with personality_snapshots := new_snapshot :: pd.personality_snapshots }

/-- The skip test applied per user in `personality_analysis_node`
(lines 619-629): stop-reanalysis flag AND `is_user_confident_enough`. -/
def personality_skip (stop_reanalysis_when_confident : Bool)
    (participant_data : Option ParticipantData)
    (confidence_thresholds : List (String × ℚ)) : Bool :=
  stop_reanalysis_when_confident &&
    (is_user_confident_enough participant_data confidence_thresholds).1

/-- Modelled from the spec: the claim's reading of the skip condition —
every trait confidence of the LATEST (most recently written, i.e.
first, given the insert-at-front save order) on-disk snapshot meets
its threshold.  Stated for comparison with the code's
`is_user_confident_enough`. -/
def spec_latest_snapshot_confident (pd : ParticipantData)
    (confidence_thresholds : List (String × ℚ)) : Bool :=
  match pd.personality_snapshots.head? with
  | none => false
  | some latest =>
    latest.big5 ≠ [] &&
      BIG5_TRAITS.all (fun trait =>
        let confidence := (dictGetTrait latest.big5 trait).confidence.getD 0
        let threshold := (confidence_thresholds.lookup trait).getD (9 / 10)
        threshold ≤ confidence)

/-- Python `max(a, b)` on rationals, kernel-computable. -/
def pyMax (a b : ℚ) : ℚ := if a < b then b else a

/-- Round a rational to two decimal places, ties to even (Python's
`round(x, 2)` in its documented decimal semantics). -/
def roundHalfEven2 (q : ℚ) : ℚ :=
  let scaled : ℚ := 100 * q
  let fl : ℤ := ⌊scaled⌋
  let frac : ℚ := scaled - fl
  let r : ℤ :=
    if 1 / 2 < frac then fl + 1
    else if frac < 1 / 2 then fl
    else if fl % 2 = 0 then fl else fl + 1
  (r : ℚ) / 100

/-- `message_count_confidence_penalty` configuration dict. -/
structure PenaltyConfig where
  enabled : Option Bool := none
  min_messages_full_confidence : Option Nat := none
  penalty_factor : Option ℚ := none
deriving Repr, DecidableEq

/-- Shallow embedding of `apply_confidence_penalty`
(component_C.py lines 58-94): unchanged at or above the message
threshold; below it, each trait's confidence is penalised by
`(min - count) * penalty_factor`, clamped at 0, ROUNDED to two
decimals, with the original preserved as `raw_confidence`. -/
def apply_confidence_penalty (big5_results : List (String × TraitData))
    (message_count : Nat) (penalty_config : PenaltyConfig) :
    List (String × TraitData) :=
  let min_messages := penalty_config.min_messages_full_confidence.getD 15
  let penalty_factor := penalty_config.penalty_factor.getD (3 / 100)
  if min_messages ≤ message_count then big5_results
  else
    let penalty : ℚ := ((min_messages - message_count : Nat) : ℚ) * penalty_factor
    big5_results.map (fun p =>
      let raw_confidence := p.2.confidence.getD 0
      (p.1, { p.2 with
                raw_confidence := some raw_confidence,
                confidence :=
                  some (roundHalfEven2 (pyMax 0 (raw_confidence - penalty))) }))

/-! ## Human-approval gate (nodes/supervisor/human_approval.py) -/

/-- One operator decision. -/
structure Decision where
  agent_name : Option String := none
  decision : Option String := none
  edited_content : Option String := none
  rejection_reason : Option String := none
  replacement_message : Option String := none
deriving Repr, DecidableEq

/-- `decision_lookup.get(agent_name, {})`: the dict comprehension keyed
by agent name keeps the LAST decision per agent. -/
def decisionFor (decisions : List Decision) (name : String) : Decision :=
  ((decisions.filter (fun d => d.agent_name = some name)).getLast?).getD {}

/-- Items forwarded for one queue entry by
`process_approval_response`: approved entries carry forward (with a
truthy edit applied to `action_content`); rejected entries yield a
replacement item (action id `operator_replacement`) when a truthy
`replacement_message` exists, else nothing; non-pending entries and
unrecognised decision values yield nothing. -/
def approvalItemResult (decisions : List Decision) (action : QueueItem) :
    List QueueItem :=
  if action.status ≠ some "pending" then []
  else
    let agent_name := action.agent_name.getD "Unknown"
    let decision := decisionFor decisions agent_name
    let decision_type := decision.decision.getD "rejected"
    if decision_type = "approved" then
      if strTruthy decision.edited_content then
        [{ action with action_content := decision.edited_content }]
      else [action]
    else if decision_type = "rejected" then
      if strTruthy decision.replacement_message then
        [{ action with
             action_content := decision.replacement_message,
             action_id := some "operator_replacement",
             action_purpose := some ("Operator replacement for: " ++
               (action.action_purpose.getD "")) }]
      else []
    else []

/-- Shallow embedding of `process_approval_response`
(human_approval.py lines 114-193). -/
def process_approval_response (queue : List QueueItem)
    (decisions : List Decision) : List QueueItem :=
  queue.flatMap (approvalItemResult decisions)

/-- Queue forwarded to the executor when the gate resumes with an
operator response (`human_approval_node`, HITL enabled, pending items
present). -/
def human_approval_resume (st : SupervisorState) (decisions : List Decision) :
    List QueueItem :=
  process_approval_response st.execution_queue decisions

/-! ## Supervisor wrapper around the agent subgraph
(build_graph.py `create_agent_node`) -/

/-- ActionRecord appended to `agents_recent_actions`. -/
structure ActionRecord where
  trigger_id : String
  trigger_justification : String
  target_message : Option TargetMsg := none
  action_id : String
  action_purpose : String
  action_content : String
  action_timestamp : Option String := none
deriving Repr, DecidableEq

/-- Update returned by an agent wrapper node to the supervisor state
(absent keys = empty). -/
structure AgentNodeUpdate where
  selected_actions : List SchedAction := []
  agents_recent_actions : List (String × List ActionRecord) := []
deriving Repr, DecidableEq

/-- Shallow embedding of the per-persona wrapper node's
result-processing (build_graph.py lines 219-268): a falsy or
`no_action_needed` outcome returns the empty update; otherwise exactly
one `selected_actions` entry is appended, and an ActionRecord is
recorded only when the status literal equals "approved by validator". -/
def create_agent_node_update (agent_name agent_type : String)
    (persona : Persona) (result : AgentState) : AgentNodeUpdate :=
  let selected_action := result.selected_action
  let detected_trigger := result.detected_trigger
  if selected_action = none ∨ selected_action = some {} ∨
      (selected_action.getD {}).status = some "no_action_needed" then
    {}
  else
    let sa := selected_action.getD {}
    let action_entry : SchedAction :=
      { agent_name := some (persona.first_name.getD agent_name),
        agent_type := some agent_type,
        selected_action := selected_action,
        styled_response := some (result.styled_response.getD ""),
        phone_number := some (persona.phone_number.getD ""),
        status := some (sa.status.getD "success") }
    if sa.status = some "approved by validator" then
      { selected_actions := [action_entry],
        agents_recent_actions := [(agent_name,
          [{ trigger_id := (detected_trigger.map (fun dt => dt.id)).getD "",
             trigger_justification :=
               (detected_trigger.map (fun dt => dt.justification)).getD "",
             target_message := sa.target_message,
             action_id := sa.id.getD "",
             action_purpose := sa.purpose.getD "",
             action_content := result.styled_response.getD "",
             action_timestamp := none }])] }
    else { selected_actions := [action_entry] }

/-! ## Concrete inputs for the remaining claims -/

/-- State with a single unclassified message (spec scenario S1). -/
def c4_state : SupervisorState :=
  { recent_messages := [{ message_id := some "m1", text := "lol ok" }] }

/-- A second state, with one classified and one unclassified message. -/
def c4_state2 : SupervisorState :=
  { recent_messages :=
      [{ message_id := some "m2", text := "hi",
         message_emotion := some { emotion := "joy", justification := "greeting" } },
       { message_id := some "m1", text := "lol ok" }] }

/-- Older snapshot: every trait at confidence 0.95. -/
def c5_oldSnap : Snapshot :=
  { big5 := BIG5_TRAITS.map (fun t => (t, { confidence := some (95 / 100) })) }

/-- Newer snapshot: every trait at confidence 0.40. -/
def c5_newSnap : Snapshot :=
  { big5 := BIG5_TRAITS.map (fun t => (t, { confidence := some (40 / 100) })) }

/-- Participant whose snapshot list is newest-first, as written by
`save_personality_analysis`. -/
def c5_participant : ParticipantData :=
  save_personality_snapshot { personality_snapshots := [c5_oldSnap] } c5_newSnap

/-- Trait results entering the confidence penalty: one trait at raw
confidence 0.855. -/
def c6_results : List (String × TraitData) :=
  [("openness", { score := some 4, confidence := some (427 / 500) })]

/-- Pending queue for the approval gate (spec scenario S6). -/
def c8_itemA : QueueItem :=
  { agent_name := some "Tamar", agent_type := some "expert",
    phone_number := some "15550001", action_id := some "answer_question",
    action_purpose := some "answer", action_content := some "draft A",
    status := some "pending" }

/-- Second pending item, to be rejected with a replacement. -/
def c8_itemB : QueueItem :=
  { agent_name := some "Matan", agent_type := some "troll",
    phone_number := some "15550002", action_id := some "expand_discussion",
    action_purpose := some "expand", action_content := some "draft B",
    status := some "pending" }

/-- Operator decisions: approve A with an edit, reject B with a
replacement message. -/
def c8_decisions : List Decision :=
  [{ agent_name := some "Tamar", decision := some "approved",
     edited_content := some "edited A" },
   { agent_name := some "Matan", decision := some "rejected",
     rejection_reason := some "off brand",
     replacement_message := some "nevermind" }]

/-- Persona used by the wrapper-node evaluation. -/
def c9_persona : Persona :=
  { agent_name := some "Tamar", first_name := some "Tamar",
    last_name := some "Cohen", phone_number := some "15550001" }

/-- Final subgraph state after a validator-approved run: the
orchestrator has set status "success". -/
def c9_result : AgentState :=
  { selected_action := some
      { id := some "answer_question", purpose := some "answer",
        status := some "success", styled_response := some "final text",
        agent_type := some "expert", agent_name := some "Tamar",
        phone_number := some "15550001" },
    styled_response := some "final text",
    detected_trigger := some { id := "direct_question", justification := "asked" },
    current_node := some "orchestrator", next_node := some "__end__" }

/-- Validator-approved state entering the orchestrator. -/
def c9_validatorState : AgentState :=
  { current_node := some "validator",
    validation := some { approved := true },
    styled_response := some "final text",
    selected_action := some { id := some "answer_question", purpose := some "answer" },
    selected_persona := some c9_persona,
    agent_type := some "expert" }

/-- Oracle of the non-terminating run: trigger analysis keeps
returning id "ERROR" (a JSON parse failure) and the decision maker
keeps taking a bare-return branch. -/
def errOracle : Nat → OracleOut := fun _ =>
  { trig := some { id := "ERROR", justification := "JSON parsing failed" },
    decision := .noUpdate }

/-- First state of the resulting loop: just after trigger analysis. -/
def c3_loopA : AgentState :=
  { detected_trigger := some { id := "ERROR", justification := "JSON parsing failed" },
    current_node := some "trigger_analysis",
    next_node := some "trigger_analysis" }

/-- Second state of the loop: just after the decision maker's
bare-return (no update, so `current_node` is still "orchestrator"). -/
def c3_loopB : AgentState :=
  { detected_trigger := some { id := "ERROR", justification := "JSON parsing failed" },
    current_node := some "orchestrator",
    next_node := some "decision_maker" }

/-! ## Theorems -/

/-- C2, counterexample: with `current_node = "trigger_analysis"` and a
detected trigger whose id is "ERROR", the orchestrator routes to
`decision_maker` and sets no selected_action — it does not end the
subgraph with an error-status selected_action as the claim states
(orchestrator.py has no ERROR branch after trigger analysis). -/
theorem c2_error_routes_to_decision_maker :
    (orchestrator_node errorTriggerState).next_node = "decision_maker" ∧
    (orchestrator_node errorTriggerState).selected_action = none := by
  constructor <;> decide

/-- C2 (amended): after trigger_analysis, a null trigger or an id equal
to "neutral" — or merely containing "neutral" case-insensitively —
ends the subgraph with a `no_action_needed` selected_action; every
other id, including "ERROR", routes to decision_maker with no
selected_action update. -/
theorem c2_amended_routing (s : AgentState)
    (h : s.current_node = some "trigger_analysis") :
    (s.detected_trigger = none →
      (orchestrator_node s).next_node = END ∧
      updStatus (orchestrator_node s) = some "no_action_needed") ∧
    (∀ dt, s.detected_trigger = some dt →
      ((dt.id = "neutral" ∨ pyContains (pyLower dt.id) "neutral" = true) →
        (orchestrator_node s).next_node = END ∧
        updStatus (orchestrator_node s) = some "no_action_needed") ∧
      (dt.id ≠ "neutral" → pyContains (pyLower dt.id) "neutral" = false →
        (orchestrator_node s).next_node = "decision_maker" ∧
        (orchestrator_node s).selected_action = none)) := by
  refine ⟨?_, ?_⟩
  · intro hdt
    simp [orchestrator_node, h, hdt, updStatus, END]
  · intro dt hdt
    refine ⟨?_, ?_⟩
    · intro hc
      rcases hc with hc | hc <;>
        simp [orchestrator_node, h, hdt, updStatus, hc, END]
    · intro h1 h2
      simp [orchestrator_node, h, hdt, updStatus, h1, h2]

/-- Witness for the amended C2 routing at two concrete states. -/
theorem c2_amended_routing_witness :
    ((orchestrator_node nullTriggerState).next_node = END ∧
     updStatus (orchestrator_node nullTriggerState) = some "no_action_needed") ∧
    ((orchestrator_node questionTriggerState).next_node = "decision_maker" ∧
     (orchestrator_node questionTriggerState).selected_action = none) :=
  ⟨(c2_amended_routing nullTriggerState rfl).1 rfl,
   ((c2_amended_routing questionTriggerState rfl).2 _ rfl).2
     (by decide) (by decide)⟩


/-- Helper: every continuing step of the agent subgraph strictly
decreases the measure `mu`, and the potential `FA` pays for each entry
into `text_generator`. -/
theorem stepA_decrease (o : OracleOut) (s s1 : AgentState)
    (hdec : o.decision ≠ DecisionOut.noUpdate)
    (h : stepA o s = .cont s1) : mu s1 < mu s ∧ FA s1 + tgFlag s ≤ FA s := by
  rcases hcur : s.current_node with _ | name
  · simp [stepA, orchestrator_node, hcur, END] at h
    subst h
    simp [mu, FA, tgFlag, orchestrator_node, nodeRun, applyOrch, hcur, END]
  · by_cases h1 : name = "orchestrator"
    · subst h1
      simp [stepA, orchestrator_node, hcur, END] at h
      subst h
      simp [mu, FA, tgFlag, orchestrator_node, nodeRun, applyOrch, hcur, END]
    · by_cases h2 : name = "trigger_analysis"
      · subst h2
        rcases hdt : s.detected_trigger with _ | dt
        · simp [stepA, orchestrator_node, hcur, hdt, END] at h
        · by_cases hneu : (dt.id = "neutral" ∨ pyContains (pyLower dt.id) "neutral" = true)
          · simp [stepA, orchestrator_node, hcur, hdt, hneu, END] at h
          · rcases hd : o.decision with _ | sa
            · exact absurd hd hdec
            · simp [stepA, orchestrator_node, hcur, hdt, hneu, END] at h
              subst h
              simp [mu, FA, tgFlag, orchestrator_node, nodeRun, applyOrch, hcur, hdt,
                hneu, hd, END]
      · by_cases h3 : name = "decision_maker"
        · subst h3
          rcases hsa : s.selected_action with _ | sa
          · simp [stepA, orchestrator_node, hcur, hsa, END] at h
          · simp [stepA, orchestrator_node, hcur, hsa, END] at h
            subst h
            simp [mu, FA, tgFlag, orchestrator_node, nodeRun, applyOrch, hcur, hsa, END,
              gRc, ftg]
            omega
        · by_cases h4 : name = "text_generator"
          · subst h4
            by_cases hg : strTruthy s.generated_response = true
            · simp [stepA, orchestrator_node, hcur, hg, END] at h
              subst h
              simp [mu, FA, tgFlag, orchestrator_node, nodeRun, applyOrch, hcur, hg, END,
                gRc, ftg]
            · simp [stepA, orchestrator_node, hcur, hg, END] at h
          · by_cases h5 : name = "styler"
            · subst h5
              by_cases hst : strTruthy s.styled_response = true
              · simp [stepA, orchestrator_node, hcur, hst, END] at h
                subst h
                by_cases hrc : 3 ≤ s.retry_count
                · simp [mu, FA, tgFlag, orchestrator_node, nodeRun, applyOrch,
                    validator_node, approvedOf, hcur, hst, hrc, END, MAX_RETRIES, gRc, ftg]
                · rcases hv : o.valid with _ | expl | _ | msg <;>
                    simp [mu, FA, tgFlag, orchestrator_node, nodeRun, applyOrch,
                      validator_node, approvedOf, hcur, hst, hrc, hv, END, MAX_RETRIES,
                      gRc, ftg] <;>
                    omega
              · simp [stepA, orchestrator_node, hcur, hst, END] at h
            · by_cases h6 : name = "validator"
              · subst h6
                by_cases happ : approvedOf s = true
                · rw [approvedOf] at happ
                  simp [stepA, orchestrator_node, hcur, happ, END] at h
                · have happ2 : (Option.map (fun v => v.approved) s.validation).getD false = false := by
                    simpa [approvedOf] using happ
                  by_cases hrc : 3 ≤ s.retry_count
                  · simp [stepA, orchestrator_node, hcur, happ2, hrc, END, MAX_RETRIES] at h
                  · simp [stepA, orchestrator_node, hcur, happ2, hrc, END, MAX_RETRIES] at h
                    subst h
                    simp [mu, FA, tgFlag, orchestrator_node, nodeRun, applyOrch, hcur,
                      happ2, hrc, END, MAX_RETRIES, gRc, ftg, approvedOf]
                    omega
              · simp [stepA, orchestrator_node, hcur, h1, h2, h3, h4, h5, h6, END] at h

/-- Helper: with fuel exceeding the measure, the run completes and the
`text_generator` entry count is bounded by the potential. -/
theorem runA_completes (oracle : Nat → OracleOut)
    (hor : ∀ k, (oracle k).decision ≠ DecisionOut.noUpdate) :
    ∀ fuel k s, mu s < fuel →
      ∃ sf c, runA oracle fuel k s = some (sf, c) ∧ c ≤ FA s := by
  intro fuel
  induction fuel with
  | zero => intro k s h; omega
  | succ f ih =>
    intro k s h
    cases hst : stepA (oracle k) s with
    | done sf =>
      exact ⟨sf, 0, by simp [runA, hst], Nat.zero_le _⟩
    | cont s1 =>
      obtain ⟨hmu, hF⟩ := stepA_decrease (oracle k) s s1 (hor k) hst
      obtain ⟨sf, c, hrun, hc⟩ := ih (k + 1) s1 (by omega)
      refine ⟨sf, c + tgFlag s, ?_, ?_⟩
      · simp [runA, hst, hrun]
      · omega

/-- Helper: whenever every decision-maker step produces an update (the
function's dict-returning branches), the agent-subgraph run completes
within 22 steps of fuel, entering `text_generator` at most 4 times. -/
theorem agent_run_bound (oracle : Nat → OracleOut)
    (hor : ∀ k, (oracle k).decision ≠ DecisionOut.noUpdate)
    (at? : Option String) (p : Option Persona) :
    ∃ sf c, runA oracle 22 0 (initAgentState at? p) = some (sf, c) ∧ c ≤ 4 := by
  have hmu : mu (initAgentState at? p) < 22 := by
    simp [mu, initAgentState]
  obtain ⟨sf, c, hrun, hc⟩ := runA_completes oracle hor 22 0 (initAgentState at? p) hmu
  have hFA : FA (initAgentState at? p) = 3 := by
    simp [FA, initAgentState, ftg]
  exact ⟨sf, c, hrun, by omega⟩

/-- Helper: under the ERROR-trigger, bare-return-decision oracle the
machine never leaves the two-state loop, at any fuel. -/
theorem errOracle_loops (fuel : Nat) : ∀ k,
    runA errOracle fuel k c3_loopA = none ∧
    runA errOracle fuel k c3_loopB = none := by
  induction fuel with
  | zero => intro k; exact ⟨rfl, rfl⟩
  | succ f ih =>
    intro k
    have hA : stepA (errOracle k) c3_loopA = .cont c3_loopB := by
      simp only [errOracle]
      decide
    have hB : stepA (errOracle k) c3_loopB = .cont c3_loopA := by
      simp only [errOracle]
      decide
    constructor
    · simp [runA, hA, (ih (k + 1)).2]
    · simp [runA, hB, (ih (k + 1)).1]

/-- Helper: from the fresh AgentState, the ERROR/bare-return oracle
never completes, whatever the fuel. -/
theorem errOracle_init (fuel : Nat) :
    runA errOracle fuel 0 (initAgentState none none) = none := by
  cases fuel with
  | zero => rfl
  | succ f =>
    have hstep : stepA (errOracle 0) (initAgentState none none) = .cont c3_loopA := by
      simp only [errOracle]
      decide
    have hf := (errOracle_loops f 1).1
    simp [runA, hstep, hf]

/-- C3: the decision maker's bare-return branches break the claimed
termination.  When trigger analysis yields id "ERROR" (routed to
decision_maker) and the decision maker takes a bare-return branch
(producing no update, so `current_node` stays "orchestrator"), the
subgraph cycles orchestrator → trigger_analysis → orchestrator →
decision_maker with period 2 and never reaches END: the run is
`none` even at fuel 1000.  The claim's bound is the code's evident
intent and holds whenever the decision maker returns an update, as its
LLM-driven branches do: the run then completes with at most 4
`text_generator` entries; a non-approved validation of a non-empty
styled response returns `retry_count + 1`; and at `retry_count = 3`
with a non-approved verdict the orchestrator ends the run with status
`max_retries_reached`. -/
theorem c3_retry_bound_bug :
    (stepA (errOracle 0) c3_loopA = .cont c3_loopB ∧
     stepA (errOracle 0) c3_loopB = .cont c3_loopA) ∧
    runA errOracle 1000 0 (initAgentState none none) = none ∧
    (∃ sf c, runA defaultOracle 22 0 (initAgentState none none) = some (sf, c) ∧
      c ≤ 4) ∧
    (validator_node (.notApproved "too rude") validatorRejInput).retry_count
      = validatorRejInput.retry_count + 1 ∧
    ((orchestrator_node maxRetryValidatorState).next_node = END ∧
     updStatus (orchestrator_node maxRetryValidatorState) = some "max_retries_reached") := by
  refine ⟨⟨?_, ?_⟩, ?_, ?_, by decide, by decide, by decide⟩
  · simp only [errOracle]
    decide
  · simp only [errOracle]
    decide
  · exact errOracle_init 1000
  · exact agent_run_bound defaultOracle (fun k => by simp [defaultOracle]) none none

/-- C1: the scheduler's returned update carries `selected_actions = []`
(the Python empty list, not the `"CLEAR"` sentinel), and the reducer
`add_or_clear` appends it, leaving the pre-existing list untouched:
after the scheduler's update is applied through the merge rules the
channel still holds the original action, not `[]`.  Only the
executor's `"CLEAR"` value empties the channel. -/
theorem c1_clearance_fails :
    (scheduler_node c1_times c1_state).selected_actions = [] ∧
    add_or_clear (some [c1_action])
      (.items (scheduler_node c1_times c1_state).selected_actions) = [c1_action] ∧
    [c1_action] ≠ [] ∧
    add_or_clear (some [c1_action]) .clear = [] := by
  refine ⟨?_, ?_, ?_, ?_⟩ <;> decide

/-- Helper: structural facts about every queue item the scheduler
builds, and how the executor dispatches such an item. -/
theorem schedulerItemProps (t : String) (a : SchedAction) :
    (schedulerQueueItem t a).action_id = none ∧
    (schedulerQueueItem t a).target_message = none ∧
    (schedulerQueueItem t a).action_id.getD "unknown" = "unknown" ∧
    targetTimestamp (schedulerQueueItem t a) = none ∧
    (∀ chat mrt c, c ∈ executor_process_action chat mrt (schedulerQueueItem t a) →
      isReactionCall c = false ∧
      (∀ p tgt v r, c = Call.sendMessage p tgt v r → r = none)) ∧
    (∀ chat mrt,
      ((schedulerQueueItem t a).phone_number.getD "") ≠ "" →
      ((schedulerQueueItem t a).action_content.getD "") ≠ "" →
      executor_process_action chat mrt (schedulerQueueItem t a) =
        [Call.typing ((schedulerQueueItem t a).phone_number.getD "") chat
           (calculate_typing_duration ((schedulerQueueItem t a).action_content.getD "")),
         Call.sendMessage ((schedulerQueueItem t a).phone_number.getD "") chat
           ((schedulerQueueItem t a).action_content.getD "") none]) := by
  have hq : (schedulerQueueItem t a).action_id = none ∧
      (schedulerQueueItem t a).target_message = none ∧
      (schedulerQueueItem t a).phone_number = some (a.phone_number.getD "") ∧
      (schedulerQueueItem t a).action_content = some (a.styled_response.getD "") := by
    unfold schedulerQueueItem
    by_cases hv : strTruthy a.validation_note = true <;> simp [hv]
  obtain ⟨h1, h2, h3, h4⟩ := hq
  refine ⟨h1, h2, by simp [h1], by simp [targetTimestamp, h2], ?_, ?_⟩
  · intro chat mrt c hc
    unfold executor_process_action at hc
    by_cases hp : ((a.phone_number.getD "" : String)) = ""
    · simp [h1, h2, h3, h4, hp] at hc
    · by_cases hco : ((a.styled_response.getD "" : String)) = ""
      · simp [h1, h2, h3, h4, hp, hco] at hc
      · simp [h1, h2, h3, h4, hp, hco] at hc
        rcases hc with hc | hc <;> subst hc
        · exact ⟨rfl, by intro p tgt v r h; cases h⟩
        · refine ⟨rfl, ?_⟩
          intro p tgt v r h
          cases h
          rfl
  · intro chat mrt hp hcont
    rw [h3] at hp
    rw [h4] at hcont
    simp at hp hcont
    unfold executor_process_action
    simp [h1, h2, h3, h4, hp, hcont]

/-- C10: every QueueItem produced by the scheduler nests its action id
under `action` and carries no top-level `action_id` or
`target_message`; the executor therefore reads `action_id` as
"unknown" and `target_message` as `None`, never calls the reaction
endpoint, never sends a reply timestamp, and — when the phone and
content guards pass — dispatches exactly a typing indicator followed
by a plain send with `replyToTimestamp = None`. -/
theorem c10_scheduler_items_plain_send
    (times : Nat → String) (st : SupervisorState) (q : QueueItem)
    (hq : q ∈ (scheduler_node times st).execution_queue) :
    q.action_id = none ∧ q.target_message = none ∧
    q.action_id.getD "unknown" = "unknown" ∧
    targetTimestamp q = none ∧
    (∀ chat mrt c, c ∈ executor_process_action chat mrt q →
      isReactionCall c = false ∧
      (∀ p tgt v r, c = Call.sendMessage p tgt v r → r = none)) ∧
    (∀ chat mrt,
      (q.phone_number.getD "") ≠ "" → (q.action_content.getD "") ≠ "" →
      executor_process_action chat mrt q =
        [Call.typing (q.phone_number.getD "") chat
           (calculate_typing_duration (q.action_content.getD "")),
         Call.sendMessage (q.phone_number.getD "") chat
           (q.action_content.getD "") none]) := by
  unfold scheduler_node at hq
  by_cases h1 : st.selected_actions = []
  · simp [h1] at hq
  · by_cases h2 : st.selected_actions.filter schedulerKeeps = []
    · simp [h1, h2] at hq
    · simp [h1, h2] at hq
      obtain ⟨i, a, hmem, rfl⟩ := hq
      exact schedulerItemProps (times i) a

/-- Witness for C10 at a concrete max-retries action: the scheduler's
item goes through typing + plain send with no reply timestamp. -/
theorem c10_scheduler_items_plain_send_witness :
    (schedulerQueueItem (c10_times 0) c10_action).action_id.getD "unknown" = "unknown" ∧
    executor_process_action "chat1" none (schedulerQueueItem (c10_times 0) c10_action) =
      [Call.typing "15550002" "chat1" 2000,
       Call.sendMessage "15550002" "chat1" "lol" none] := by
  have hmem : schedulerQueueItem (c10_times 0) c10_action ∈
      (scheduler_node c10_times c10_state).execution_queue := by decide
  have h := c10_scheduler_items_plain_send c10_times c10_state _ hmem
  refine ⟨h.2.2.1, ?_⟩
  have h6 := h.2.2.2.2.2 "chat1" none (by decide) (by decide)
  have e1 : (schedulerQueueItem (c10_times 0) c10_action).phone_number.getD "" =
      "15550002" := by decide
  have e2 : (schedulerQueueItem (c10_times 0) c10_action).action_content.getD "" =
      "lol" := by decide
  rw [e1, e2] at h6
  simpa using h6

/-- C7: for a queue item whose `action_id` is "add_reaction" the
executor never calls the message-send endpoint; when the phone and
content guards pass, a missing or unconvertible target timestamp
drops the item with no dispatch call at all, and a convertible one
leads to exactly one reaction call carrying the ISO timestamp and the
(whitespace-stripped) `action_content` as the emoji. -/
theorem c7_reaction_requires_timestamp
    (chat : String) (mrt : Option String) (q : QueueItem)
    (hid : q.action_id.getD "unknown" = "add_reaction") :
    (∀ c, c ∈ executor_process_action chat mrt q → isSendCall c = false) ∧
    ((q.phone_number.getD "") ≠ "" → (q.action_content.getD "") ≠ "" →
      (targetTimestamp q = none → executor_process_action chat mrt q = []) ∧
      (∀ ts, targetTimestamp q = some ts →
        (convert_timestamp_to_iso ts = none →
          executor_process_action chat mrt q = []) ∧
        (∀ iso, convert_timestamp_to_iso ts = some iso →
          executor_process_action chat mrt q =
            [Call.addReaction (q.phone_number.getD "") chat iso
               (pyStrip (q.action_content.getD ""))]))) := by
  constructor
  · intro c hc
    unfold executor_process_action at hc
    by_cases hp : (q.phone_number.getD "") = ""
    · simp [hp] at hc
    · by_cases hco : (q.action_content.getD "") = ""
      · simp [hp, hco] at hc
      · simp [hp, hco, hid] at hc
        rcases hq : q.target_message with _ | tm
        · simp [hq] at hc
        · simp [hq] at hc
          by_cases ht : (tm.timestamp.getD "") = ""
          · simp [ht] at hc
          · simp [ht] at hc
            rcases hiso : convert_timestamp_to_iso (tm.timestamp.getD "") with _ | iso
            · simp [hiso] at hc
            · simp [hiso] at hc
              subst hc
              rfl
  · intro hp hco
    constructor
    · intro hts
      unfold executor_process_action
      unfold targetTimestamp at hts
      simp [hp, hco, hid]
      rcases hq : q.target_message with _ | tm
      · simp
      · simp [hq] at hts
        by_cases ht : (tm.timestamp.getD "") = ""
        · simp [ht]
        · simp [ht] at hts
    · intro ts hts
      unfold targetTimestamp at hts
      rcases hq : q.target_message with _ | tm
      · simp [hq] at hts
      · simp [hq] at hts
        by_cases ht : (tm.timestamp.getD "") = ""
        · simp [ht] at hts
        · simp [ht] at hts
          subst hts
          constructor
          · intro hiso
            unfold executor_process_action
            simp [hp, hco, hid, hq, ht, hiso]
          · intro iso hiso
            unfold executor_process_action
            simp [hp, hco, hid, hq, ht, hiso]

/-- Witness for C7: a reaction with timestamp "2025-11-26 08:36:07"
dispatches to the reactions endpoint with the converted ISO form; a
reaction without a target message is dropped without any call. -/
theorem c7_reaction_requires_timestamp_witness :
    executor_process_action "chat1" none reactionItemWithTs =
      [Call.addReaction "15550003" "chat1" "2025-11-26T08:36:07.000Z" "👍"] ∧
    executor_process_action "chat1" none reactionItemNoTs = [] := by
  have h1 := c7_reaction_requires_timestamp "chat1" none reactionItemWithTs (by decide)
  have h2 := c7_reaction_requires_timestamp "chat1" none reactionItemNoTs (by decide)
  constructor
  · have h3 := (((h1.2 (by decide) (by decide)).2 "2025-11-26 08:36:07" (by decide)).2
      "2025-11-26T08:36:07.000Z" (by decide))
    have e1 : reactionItemWithTs.phone_number.getD "" = "15550003" := by decide
    have e2 : pyStrip (reactionItemWithTs.action_content.getD "") = "👍" := by decide
    rw [e1, e2] at h3
    exact h3
  · exact (h2.2 (by decide) (by decide)).1 (by decide)

/-- Helper: `classifyMessage` always leaves a non-null emotion. -/
theorem classifyMessage_isSome (items : List EmotionResponseItem) (m : Message) :
    (classifyMessage items m).message_emotion.isSome = true := by
  unfold classifyMessage
  rcases hm : m.message_emotion with _ | e
  · simp [hm]
    rcases m.message_id.bind (emotionLookup items) with _ | ed <;> simp
  · simp [hm]

/-- Helper: `errorClassify` always leaves a non-null emotion. -/
theorem errorClassify_isSome (j : String) (m : Message) :
    (errorClassify j m).message_emotion.isSome = true := by
  unfold errorClassify
  rcases hm : m.message_emotion with _ | e <;> simp [hm]

/-- Helper: a string with a non-empty literal prefix is truthy. -/
theorem strTruthy_append (pre msg : String) (h : pre.length ≠ 0) :
    strTruthy (some (pre ++ msg)) = true := by
  simp only [strTruthy, decide_eq_true_eq, ne_eq]
  intro hc
  have := congrArg String.length hc
  simp [String.length_append] at this
  omega

/-- C4, counterexample: with one unclassified message and a parsed LLM
response whose `group_sentiment` field is the empty string, the node
completes its success path with `group_sentiment = ""` — empty, not
non-empty as the claim states (emotion totality still holds). -/
theorem c4_empty_sentiment_counterexample :
    (emotion_analysis_node (.parsed [] (some "")) c4_state).group_sentiment = some "" ∧
    strTruthy (emotion_analysis_node (.parsed [] (some "")) c4_state).group_sentiment
      = false ∧
    (∀ m ∈ (emotion_analysis_node (.parsed [] (some "")) c4_state).recent_messages,
      m.message_emotion.isSome = true) := by
  refine ⟨by decide, by decide, by decide⟩

/-- C4 (amended): after the emotion-analysis node, every message has a
non-null `message_emotion` on every path; `group_sentiment` is set and
non-empty on the skip path, the double-parse-failure path and the
exception path; on the success path it equals the response's
`group_sentiment` field (defaulting to an ERROR string when the key is
missing), which is non-empty unless the response itself carries an
empty string. -/
theorem c4_amended_emotion_totality (o : BOutcome) (st : SupervisorState) :
    (∀ m ∈ (emotion_analysis_node o st).recent_messages,
      m.message_emotion.isSome = true) ∧
    (st.recent_messages.filter (fun m => m.message_emotion = none) = [] →
      strTruthy (emotion_analysis_node o st).group_sentiment = true) ∧
    (st.recent_messages.filter (fun m => m.message_emotion = none) ≠ [] →
      (o = .parseFailedTwice →
        strTruthy (emotion_analysis_node o st).group_sentiment = true) ∧
      (∀ msg, o = .raised msg →
        strTruthy (emotion_analysis_node o st).group_sentiment = true) ∧
      (∀ items gs, o = .parsed items gs →
        (emotion_analysis_node o st).group_sentiment =
          some (gs.getD "ERROR: No sentiment provided") ∧
        ((gs = none ∨ strTruthy gs = true) →
          strTruthy (emotion_analysis_node o st).group_sentiment = true))) := by
  refine ⟨?_, ?_, ?_⟩
  · intro m hm
    unfold emotion_analysis_node at hm
    by_cases hempty : st.recent_messages.filter (fun m => m.message_emotion = none) = []
    · have hall := List.filter_eq_nil_iff.mp hempty
      by_cases hgs : strTruthy st.group_sentiment = true
      · simp [hempty, hgs] at hm
        have := hall m hm
        simpa [Option.isSome_iff_ne_none] using this
      · simp [hempty, hgs] at hm
        have := hall m hm
        simpa [Option.isSome_iff_ne_none] using this
    · cases o with
      | parsed items gs =>
        simp [hempty] at hm
        obtain ⟨m0, -, rfl⟩ := hm
        exact classifyMessage_isSome items m0
      | parseFailedTwice =>
        simp [hempty] at hm
        obtain ⟨m0, -, rfl⟩ := hm
        exact errorClassify_isSome _ m0
      | raised msg =>
        simp [hempty] at hm
        obtain ⟨m0, -, rfl⟩ := hm
        exact errorClassify_isSome _ m0
  · intro hempty
    by_cases hgs : strTruthy st.group_sentiment = true
    · simp [emotion_analysis_node, hempty, hgs]
    · have hgs2 : strTruthy st.group_sentiment = false := by simpa using hgs
      simp [emotion_analysis_node, hempty, hgs2]
      decide
  · intro hne
    refine ⟨?_, ?_, ?_⟩
    · intro ho
      subst ho
      unfold emotion_analysis_node
      simp [hne, strTruthy]
    · intro msg ho
      subst ho
      unfold emotion_analysis_node
      simp [hne]
      exact strTruthy_append "ERROR: " msg (by decide)
    · intro items gs ho
      subst ho
      unfold emotion_analysis_node
      simp [hne]
      intro hgs
      rcases hgs with hgs | hgs
      · subst hgs
        simp [strTruthy]
      · rcases gs with _ | s
        · simp [strTruthy]
        · simpa [strTruthy] using hgs

/-- Witness for C4 (amended) on the exception path and on a mixed
classified/unclassified state. -/
theorem c4_amended_emotion_totality_witness :
    strTruthy (emotion_analysis_node (.raised "boom") c4_state2).group_sentiment = true ∧
    (∀ m ∈ (emotion_analysis_node (.raised "boom") c4_state2).recent_messages,
      m.message_emotion.isSome = true) :=
  ⟨((c4_amended_emotion_totality (.raised "boom") c4_state2).2.2
      (by decide)).2.1 "boom" rfl,
   (c4_amended_emotion_totality (.raised "boom") c4_state2).1⟩

/-- C5: the skip test reads `snapshots[-1]`, the OLDEST snapshot, while
snapshots are saved newest-first (`insert(0, ...)`); at this
participant the code skips re-analysis although the latest snapshot is
far below every threshold, diverging from the claim's (and the
in-code comment's) "latest snapshot" reading. -/
theorem c5_skip_checks_oldest_snapshot :
    c5_participant.personality_snapshots.head? = some c5_newSnap ∧
    c5_participant.personality_snapshots.getLast? = some c5_oldSnap ∧
    personality_skip true (some c5_participant) [] = true ∧
    spec_latest_snapshot_confident c5_participant [] = false := by
  refine ⟨rfl, rfl, ?_, ?_⟩
  · simp [personality_skip, is_user_confident_enough, c5_participant,
      save_personality_snapshot, c5_oldSnap, c5_newSnap, BIG5_TRAITS, dictGetTrait,
      List.lookup]
    norm_num
  · simp [spec_latest_snapshot_confident, c5_participant,
      save_personality_snapshot, c5_oldSnap, c5_newSnap, BIG5_TRAITS, dictGetTrait,
      List.lookup]
    norm_num

/-- Helper: banker's rounding to two decimals overshoots its argument
by at most 1/200. -/
theorem roundHalfEven2_le (x : ℚ) : roundHalfEven2 x ≤ x + 1 / 200 := by
  simp only [roundHalfEven2]
  have h1 : ((⌊100 * x⌋ : ℤ) : ℚ) ≤ 100 * x := Int.floor_le _
  have h2 : (100 * x : ℚ) < ⌊100 * x⌋ + 1 := Int.lt_floor_add_one _
  split_ifs with ha hb hc <;>
  · rw [div_le_iff₀ (by norm_num : (0:ℚ) < 100)]
    push_cast
    linarith

/-- Helper: rounding zero gives zero. -/
theorem roundHalfEven2_zero : roundHalfEven2 0 = 0 := by
  unfold roundHalfEven2
  norm_num

/-- Helper: the penalised, rounded confidence stays below a nonnegative
raw confidence whenever the penalty is at least 1/200. -/
theorem round_pyMax_le (raw penalty : ℚ) (h0 : 0 ≤ raw)
    (hp : 1 / 200 ≤ penalty) :
    roundHalfEven2 (pyMax 0 (raw - penalty)) ≤ raw := by
  rw [pyMax]
  split_ifs with h
  · have := roundHalfEven2_le (raw - penalty)
    linarith
  · rw [roundHalfEven2_zero]
    exact h0

/-- C6, counterexample: at raw confidence 0.854 with one message below
the threshold (count 14, min 15, factor 0.03) the stored confidence is
the ROUNDED 0.82, not the claim's exact `max(0, raw − (min−count)·
penalty_factor) = 0.824`; the raw value is preserved. -/
theorem c6_round_deviates_from_formula :
    (((apply_confidence_penalty c6_results 14 {}).lookup "openness").getD {}).confidence
      = some (41 / 50) ∧
    (((apply_confidence_penalty c6_results 14 {}).lookup "openness").getD {}).raw_confidence
      = some (427 / 500) ∧
    (41 / 50 : ℚ) ≠ pyMax 0 ((427 / 500 : ℚ) - ((15 - 14 : Nat) : ℚ) * (3 / 100)) := by
  have hfloor : (⌊(412 / 5 : ℚ)⌋ : ℤ) = 82 := by
    rw [Int.floor_eq_iff]
    norm_num
  have hx : pyMax 0 ((427 / 500 : ℚ) - ((15 - 14 : Nat) : ℚ) * (3 / 100)) = 103 / 125 := by
    have hval : ((427 / 500 : ℚ) - ((15 - 14 : Nat) : ℚ) * (3 / 100)) = 103 / 125 := by
      push_cast
      norm_num
    rw [hval, pyMax, if_pos (by norm_num : (0 : ℚ) < 103 / 125)]
  have h100 : (100 : ℚ) * (103 / 125) = 412 / 5 := by norm_num
  have hround : roundHalfEven2 (103 / 125) = 41 / 50 := by
    simp only [roundHalfEven2, h100, hfloor]
    norm_num
  have happly : apply_confidence_penalty c6_results 14 {} =
      [("openness",
        { score := some 4, confidence := some (41 / 50),
          raw_confidence := some (427 / 500) })] := by
    simp only [apply_confidence_penalty, Option.getD_none, Option.getD_some,
      c6_results, List.map]
    rw [if_neg (by norm_num : ¬ (15 : Nat) ≤ 14)]
    rw [hx, hround]
  refine ⟨?_, ?_, ?_⟩
  · rw [happly]
    simp [List.lookup]
  · rw [happly]
    simp [List.lookup]
  · rw [hx]
    norm_num

/-- C6 (amended): at or above `min_messages_full_confidence` the
results pass through unchanged; below it, each trait stores its
original confidence as `raw_confidence` and its confidence becomes
`max(0, raw − (min−count)·penalty_factor)` ROUNDED to two decimals;
consequently, whenever the penalty factor is at least 0.005 (the
code's default is 0.03) and the raw confidence is nonnegative, the
adjusted confidence never exceeds `raw_confidence`. -/
theorem c6_penalty_amended (big5 : List (String × TraitData)) (count : Nat)
    (cfg : PenaltyConfig) :
    ((cfg.min_messages_full_confidence.getD 15) ≤ count →
      apply_confidence_penalty big5 count cfg = big5) ∧
    (count < cfg.min_messages_full_confidence.getD 15 →
      apply_confidence_penalty big5 count cfg = big5.map (fun p =>
        (p.1, { p.2 with
                  raw_confidence := some (p.2.confidence.getD 0),
                  confidence := some (roundHalfEven2 (pyMax 0
                    ((p.2.confidence.getD 0) -
                      ((cfg.min_messages_full_confidence.getD 15 - count : Nat) : ℚ) *
                        cfg.penalty_factor.getD (3 / 100)))) }))) ∧
    (count < cfg.min_messages_full_confidence.getD 15 →
      1 / 200 ≤ cfg.penalty_factor.getD (3 / 100) →
      ∀ p ∈ apply_confidence_penalty big5 count cfg,
        0 ≤ p.2.raw_confidence.getD 0 →
        p.2.confidence.getD 0 ≤ p.2.raw_confidence.getD 0) := by
  refine ⟨?_, ?_, ?_⟩
  · intro h
    unfold apply_confidence_penalty
    simp [h]
  · intro h
    unfold apply_confidence_penalty
    rw [if_neg (by omega)]
  · intro h hpf p hp hraw
    unfold apply_confidence_penalty at hp
    rw [if_neg (by omega)] at hp
    simp only [List.mem_map] at hp
    obtain ⟨q, -, rfl⟩ := hp
    simp only [Option.getD_some] at hraw ⊢
    have hk : (1 : ℚ) ≤ ((cfg.min_messages_full_confidence.getD 15 - count : Nat) : ℚ) := by
      have : 1 ≤ cfg.min_messages_full_confidence.getD 15 - count := by omega
      exact_mod_cast this
    have hpen : 1 / 200 ≤
        ((cfg.min_messages_full_confidence.getD 15 - count : Nat) : ℚ) *
          cfg.penalty_factor.getD (3 / 100) := by
      calc (1 / 200 : ℚ) ≤ cfg.penalty_factor.getD (3 / 100) := hpf
        _ = 1 * cfg.penalty_factor.getD (3 / 100) := by ring
        _ ≤ ((cfg.min_messages_full_confidence.getD 15 - count : Nat) : ℚ) *
              cfg.penalty_factor.getD (3 / 100) := by
            apply mul_le_mul_of_nonneg_right hk
            linarith
    exact round_pyMax_le _ _ hraw hpen

/-- Witness for C6 (amended): the unchanged branch at count 20 and the
monotonicity at the concrete 0.854-confidence trait. -/
theorem c6_penalty_amended_witness :
    apply_confidence_penalty c6_results 20 {} = c6_results ∧
    (∀ p ∈ apply_confidence_penalty c6_results 14 {},
      0 ≤ p.2.raw_confidence.getD 0 →
      p.2.confidence.getD 0 ≤ p.2.raw_confidence.getD 0) :=
  ⟨(c6_penalty_amended c6_results 20 {}).1 (by norm_num),
   (c6_penalty_amended c6_results 14 {}).2.2 (by norm_num) (by norm_num)⟩

/-- C8: every item the approval gate forwards on resume either stems
from a pending item whose agent's
operator decision is "approved" (unchanged, or with a truthy
`edited_content` substituted into `action_content`), or carries
`action_id = "operator_replacement"`; and a pending item whose agent's
decision is not "approved" (absent decisions default to rejected) is
itself never forwarded.  (The last clause needs the original item not
to be an operator replacement already, since a rejected item's
replacement could coincide with it value-for-value.) -/
theorem c8_hitl_filtering (st : SupervisorState) (decisions : List Decision) :
    (∀ q ∈ human_approval_resume st decisions,
      (∃ a, a ∈ st.execution_queue ∧ a.status = some "pending" ∧
        (decisionFor decisions (a.agent_name.getD "Unknown")).decision.getD "rejected"
          = "approved" ∧
        (q = a ∨
          (strTruthy (decisionFor decisions (a.agent_name.getD "Unknown")).edited_content
              = true ∧
           q = { a with action_content :=
                  (decisionFor decisions (a.agent_name.getD "Unknown")).edited_content }))) ∨
      q.action_id = some "operator_replacement") ∧
    (∀ a ∈ st.execution_queue, a.status = some "pending" →
      (decisionFor decisions (a.agent_name.getD "Unknown")).decision.getD "rejected"
        ≠ "approved" →
      a.action_id ≠ some "operator_replacement" →
      a ∉ human_approval_resume st decisions) := by
  constructor
  · intro q hq
    unfold human_approval_resume process_approval_response at hq
    rw [List.mem_flatMap] at hq
    obtain ⟨a, ha, hqa⟩ := hq
    unfold approvalItemResult at hqa
    by_cases hpend : a.status = some "pending"
    · rw [if_neg (not_not_intro hpend)] at hqa
      by_cases happ : (decisionFor decisions (a.agent_name.getD "Unknown")).decision.getD
          "rejected" = "approved"
      · rw [if_pos happ] at hqa
        by_cases hedit : strTruthy
            (decisionFor decisions (a.agent_name.getD "Unknown")).edited_content = true
        · rw [if_pos hedit] at hqa
          simp only [List.mem_singleton] at hqa
          exact Or.inl ⟨a, ha, hpend, happ, Or.inr ⟨hedit, hqa⟩⟩
        · rw [if_neg hedit] at hqa
          simp only [List.mem_singleton] at hqa
          exact Or.inl ⟨a, ha, hpend, happ, Or.inl hqa⟩
      · rw [if_neg happ] at hqa
        by_cases hrej : (decisionFor decisions (a.agent_name.getD "Unknown")).decision.getD
            "rejected" = "rejected"
        · rw [if_pos hrej] at hqa
          by_cases hrepl : strTruthy
              (decisionFor decisions (a.agent_name.getD "Unknown")).replacement_message
                = true
          · rw [if_pos hrepl] at hqa
            simp only [List.mem_singleton] at hqa
            subst hqa
            exact Or.inr rfl
          · rw [if_neg hrepl] at hqa
            simp at hqa
        · rw [if_neg hrej] at hqa
          simp at hqa
    · rw [if_pos hpend] at hqa
      simp at hqa
  · intro a ha hpend hdec hid hmem
    unfold human_approval_resume process_approval_response at hmem
    rw [List.mem_flatMap] at hmem
    obtain ⟨b, hb, hab⟩ := hmem
    unfold approvalItemResult at hab
    by_cases hbpend : b.status = some "pending"
    · rw [if_neg (not_not_intro hbpend)] at hab
      by_cases happ : (decisionFor decisions (b.agent_name.getD "Unknown")).decision.getD
          "rejected" = "approved"
      · rw [if_pos happ] at hab
        by_cases hedit : strTruthy
            (decisionFor decisions (b.agent_name.getD "Unknown")).edited_content = true
        · rw [if_pos hedit] at hab
          simp only [List.mem_singleton] at hab
          apply hdec
          have hag : a.agent_name = b.agent_name := by rw [hab]
          rw [hag]
          exact happ
        · rw [if_neg hedit] at hab
          simp only [List.mem_singleton] at hab
          subst hab
          exact hdec happ
      · rw [if_neg happ] at hab
        by_cases hrej : (decisionFor decisions (b.agent_name.getD "Unknown")).decision.getD
            "rejected" = "rejected"
        · rw [if_pos hrej] at hab
          by_cases hrepl : strTruthy
              (decisionFor decisions (b.agent_name.getD "Unknown")).replacement_message
                = true
          · rw [if_pos hrepl] at hab
            simp only [List.mem_singleton] at hab
            apply hid
            rw [hab]
          · rw [if_neg hrepl] at hab
            simp at hab
        · rw [if_neg hrej] at hab
          simp at hab
    · rw [if_pos hbpend] at hab
      simp at hab

/-- Witness for C8 on the S6-style scenario: the forwarded replacement
item is classified by the theorem, and the rejected original is not
forwarded. -/
theorem c8_hitl_filtering_witness :
    ((∃ a, a ∈ [c8_itemA, c8_itemB] ∧ a.status = some "pending" ∧
        (decisionFor c8_decisions (a.agent_name.getD "Unknown")).decision.getD "rejected"
          = "approved" ∧
        ({ c8_itemA with action_content := some "edited A" } = a ∨
          (strTruthy (decisionFor c8_decisions (a.agent_name.getD "Unknown")).edited_content
              = true ∧
           { c8_itemA with action_content := some "edited A" } =
             { a with action_content :=
                (decisionFor c8_decisions (a.agent_name.getD "Unknown")).edited_content }))) ∨
      ({ c8_itemA with action_content := some "edited A" } : QueueItem).action_id =
        some "operator_replacement") ∧
    c8_itemB ∉ human_approval_resume { execution_queue := [c8_itemA, c8_itemB] }
      c8_decisions :=
  ⟨(c8_hitl_filtering { execution_queue := [c8_itemA, c8_itemB] } c8_decisions).1
      { c8_itemA with action_content := some "edited A" } (by decide),
   (c8_hitl_filtering { execution_queue := [c8_itemA, c8_itemB] } c8_decisions).2
      c8_itemB (by decide) (by decide) (by decide) (by decide)⟩

/-- C9: the wrapper node appends at most one entry to
`selected_actions`, and the orchestrator's validator-approved outcome
carries status "success" — but the wrapper only records an
ActionRecord when the status literal equals "approved by validator",
so an approved run's update appends NO record to
`agents_recent_actions` (evaluated at a concrete approved result),
contradicting the claim. -/
theorem c9_approved_record_missing :
    (∀ (n t : String) (p : Persona) (r : AgentState),
      (create_agent_node_update n t p r).selected_actions.length ≤ 1) ∧
    updStatus (orchestrator_node c9_validatorState) = some "success" ∧
    (create_agent_node_update "Tamar" "expert" c9_persona c9_result).selected_actions.length
      = 1 ∧
    (create_agent_node_update "Tamar" "expert" c9_persona c9_result).agents_recent_actions
      = [] := by
  refine ⟨?_, by decide, by decide, by decide⟩
  intro n t p r
  simp only [create_agent_node_update]
  split_ifs <;> simp

end CulturalAgents
